import Mathlib

/-
  Verification development for the telegram_channel repository.

  Shallow embedding of:
  - ConnectionManager.broadcast / disconnect          (src/app.py, lines 67-89)
  - detect_media_type / get_mime_type                 (src/app.py, lines 97-155)
  - get_media_data and its three call sites           (src/app.py, lines 157-202, 468-478, 503-518, 619-628)
  - the live new-message handler                      (src/app.py, lines 593-631)
  - the websocket connect precheck                    (src/app.py, lines 536-553)
  - get_session_status (endpoint and library copy)   (src/app.py 214-326, src/get_client.py 219-297)
  - verify_code                                       (src/app.py, lines 368-408)
  - switch_channel                                    (src/app.py, lines 521-533)
  - create_telegram_client / check_session_file_health (src/get_client.py, lines 23-166)

  Modelling conventions: connections are identified by naturals; upstream
  (Telethon) calls are oracles passed as explicit arguments; Python truthiness
  of optional strings is modelled explicitly; timestamp strings, log text and
  generated file names are elided where no claim mentions them.
-/

namespace TelegramChannel

/-! ## ConnectionManager (src/app.py lines 67-89)

`active_connections` is a Python list; `disconnect` checks membership and then
calls `list.remove` (first occurrence).  `broadcast` iterates the list with a
Python `for` loop, which reads the element at the iterator index and then
advances the index; removing the current element inside the loop body therefore
shifts the remaining elements left under the already-advanced index. -/

def disconnectConn (l : List Nat) (c : Nat) : List Nat :=
  if c ∈ l then l.erase c else l

theorem disconnectConn_length (l : List Nat) (c : Nat) (h : c ∈ l) :
    (disconnectConn l c).length = l.length - 1 := by
  simp [disconnectConn, h, List.length_erase_of_mem h]

theorem disconnectConn_subset (l : List Nat) (c : Nat) :
    disconnectConn l c ⊆ l := by
  unfold disconnectConn
  split
  · exact fun x hx => List.mem_of_mem_erase hx
  · exact fun x hx => hx

/-- State of the `for ws in self.active_connections` loop in `broadcast`:
`l` is the current list object, `i` the iterator index (already advanced past
the element being processed when the body runs).  `ok c = true` models a
successful `ws.send_json`; on failure the body calls `disconnect`.
Returns (final list, connections that received the message, in order). -/
def broadcastAux (ok : Nat → Bool) (l : List Nat) (i : Nat) : List Nat × List Nat :=
  if h : i < l.length then
    if ok l[i] then
      let r := broadcastAux ok l (i + 1)
      (r.1, l[i] :: r.2)
    else
      broadcastAux ok (disconnectConn l l[i]) (i + 1)
  else
    (l, [])
termination_by l.length - i
decreasing_by
  · omega
  · have hm : l[i] ∈ l := List.getElem_mem h
    have := disconnectConn_length l l[i] hm
    omega

/-- `ConnectionManager.broadcast`: returns the registry after the call together
with the list of connections the message was actually sent to. -/
def broadcast (ok : Nat → Bool) (l : List Nat) : List Nat × List Nat :=
  broadcastAux ok l 0

/-! ## Upstream message shape

Attachment-presence attributes of a Telethon message as used by the code:
each of `photo` ... `document` models Python truthiness of the corresponding
attribute; `media` models truthiness of `msg.media`; `file` models `msg.file`
with its `mime_type`, `name` and `size` fields. -/

structure TgFile where
  mime_type : Option String
  name : Option String
  size : Nat
deriving DecidableEq

structure TgMessage where
  photo : Bool
  video : Bool
  gif : Bool
  voice : Bool
  audio : Bool
  sticker : Bool
  poll : Bool
  document : Bool
  media : Bool
  text : String
  file : Option TgFile
deriving DecidableEq

/-! ## detect_media_type (src/app.py lines 97-114) -/

def detect_media_type (msg : TgMessage) : String :=
  if msg.photo then "photo"
  else if msg.video then "video"
  else if msg.gif then "gif"
  else if msg.voice then "voice"
  else if msg.audio then "audio"
  else if msg.sticker then "sticker"
  else if msg.poll then "poll"
  else if msg.document then "file"
  else "text"

/-! ## get_mime_type (src/app.py lines 116-155) -/

/-- Index of the last dot character in a list of characters. -/
def lastDotIdx (cs : List Char) : Option Nat :=
  ((List.range cs.length).filter (fun i => cs.getD i ' ' = '.')).getLast?

/-- Suffix of a file name, following the semantics of pathlib
(`Path(name).suffix`): the part of the final path component from its last dot,
empty when the last dot is the first or last character. -/
def pySuffix (base : List Char) : List Char :=
  match lastDotIdx base with
  | none => []
  | some i => if 0 < i ∧ i + 1 < base.length then base.drop i else []

/-- Models `Path(name).suffix.lower()`. -/
def pathSuffixLower (name : String) : String :=
  let base := ((name.splitOn "/").getLastD "").toList
  String.mk ((pySuffix base).map Char.toLower)

/-- `if msg.file and msg.file.mime_type:` — both must be Python-truthy. -/
def fileMime (msg : TgMessage) : Option String :=
  match msg.file with
  | some f =>
    match f.mime_type with
    | some m => if m.isEmpty then none else some m
    | none => none
  | none => none

/-- The extension-to-MIME dictionary inside `get_mime_type`. -/
def ext_mime_map : List (String × String) :=
  [(".pdf", "application/pdf"),
   (".doc", "application/msword"),
   (".docx", "application/vnd.openxmlformats-officedocument.wordprocessingml.document"),
   (".xls", "application/vnd.ms-excel"),
   (".xlsx", "application/vnd.openxmlformats-officedocument.spreadsheetml.sheet"),
   (".txt", "text/plain"),
   (".zip", "application/zip"),
   (".rar", "application/x-rar-compressed"),
   (".mp3", "audio/mpeg"),
   (".mp4", "video/mp4"),
   (".avi", "video/x-msvideo"),
   (".mov", "video/quicktime"),
   (".png", "image/png"),
   (".jpg", "image/jpeg"),
   (".jpeg", "image/jpeg"),
   (".gif", "image/gif"),
   (".webp", "image/webp")]

/-- `ext = Path(msg.file.name).suffix.lower() if msg.file and msg.file.name else ".bin"` -/
def extOf (msg : TgMessage) : String :=
  match msg.file with
  | some f =>
    match f.name with
    | some n => if n.isEmpty then ".bin" else pathSuffixLower n
    | none => ".bin"
  | none => ".bin"

/-- `mime_map.get(ext, 'application/octet-stream')` applied to `extOf`. -/
def extMime (msg : TgMessage) : String :=
  ((ext_mime_map.lookup (extOf msg)).getD "application/octet-stream")

def get_mime_type (msg : TgMessage) : String :=
  match fileMime msg with
  | some m => m
  | none =>
    if msg.photo then "image/jpeg"
    else if msg.video then "video/mp4"
    else if msg.gif then "image/gif"
    else if msg.voice then "audio/ogg"
    else if msg.audio then "audio/mpeg"
    else if msg.sticker then "image/webp"
    else if msg.document then extMime msg
    else "application/octet-stream"

/-! ## Spec-side MIME chain (from the wording of claim C7 / spec section 4.4):
explicit attachment MIME field when present, else a fixed kind-to-MIME table,
else a file-extension lookup for generic file attachments, else the
unknown-binary MIME type. -/

def kind_mime_table : String → Option String
  | "photo" => some "image/jpeg"
  | "video" => some "video/mp4"
  | "gif" => some "image/gif"
  | "voice" => some "audio/ogg"
  | "audio" => some "audio/mpeg"
  | "sticker" => some "image/webp"
  | _ => none

def spec_mime_chain (msg : TgMessage) : String :=
  match fileMime msg with
  | some m => m
  | none =>
    match kind_mime_table (detect_media_type msg) with
    | some m => m
    | none =>
      if detect_media_type msg = "file" then extMime msg
      else "application/octet-stream"

/-! ## get_media_data (src/app.py lines 157-202)

Oracles: `fetched` models the result of `client.get_messages(current_channel,
ids=message_id)` (`none` for no message); `downloaded` models the length of the
bytes that `client.download_media` returns (`none` for a `None` result or an
exception, `some 0` for an empty — Python-falsy — bytes object).  The generated
`file_name` field is elided. -/

inductive MediaData where
  /-- Payload with inline base64 `data` of a download of the given size. -/
  | full (file_size : Nat) (mime_type : String) (media_type : String)
  /-- Metadata-only payload: `data = None`, `requires_download = True`,
  and a `download_url` locator. -/
  | meta (file_size : Nat) (mime_type : String) (media_type : String) (download_url : String)
deriving DecidableEq

/-- `file_size = msg.file.size if msg.file else 0` -/
def fileSize (msg : TgMessage) : Nat :=
  match msg.file with
  | some f => f.size
  | none => 0

def get_media_data (message_id : Int) (fetched : Option TgMessage)
    (downloaded : Option Nat) (include_full_data : Bool) : Option MediaData :=
  match fetched with
  | none => none
  | some msg =>
    if msg.media = false then none
    else
      let media_type := detect_media_type msg
      let mime_type := get_mime_type msg
      if include_full_data then
        match downloaded with
        | none => none
        | some 0 => none
        | some n => some (.full n mime_type media_type)
      else
        some (.meta (fileSize msg) mime_type media_type
          ("/media/" ++ toString message_id))

/-- Media resolution for one item of the `/messages` full-media mode
(src/app.py lines 468-478): the 5 MB ceiling decides `include_full_data`. -/
def messages_item_media (msg : TgMessage) (fetched : Option TgMessage)
    (downloaded : Option Nat) (mid : Int) : Option MediaData :=
  if msg.media then
    get_media_data mid fetched downloaded (fileSize msg ≤ 5 * 1024 * 1024)
  else none

/-- Media resolution inside the live handler (src/app.py lines 619-628):
the 1 MB ceiling decides `include_full_data`. -/
def ws_item_media (msg : TgMessage) (fetched : Option TgMessage)
    (downloaded : Option Nat) (mid : Int) : Option MediaData :=
  if msg.media then
    get_media_data mid fetched downloaded (fileSize msg ≤ 1 * 1024 * 1024)
  else none

/-- Result of a route: a JSON body or an HTTPException with a status code. -/
inductive HttpOut (α : Type) where
  | ok (a : α)
  | httpErr (code : Nat)
deriving DecidableEq

/-- The `/media/{message_id}` endpoint (src/app.py lines 503-518): gates on the
session precheck, then passes the `full_data` query flag straight through to
`get_media_data` with no size ceiling. -/
def get_media_endpoint (requires_reconnect : Bool) (mid : Int)
    (fetched : Option TgMessage) (downloaded : Option Nat)
    (full_data : Bool) : HttpOut MediaData :=
  if requires_reconnect then .httpErr 401
  else
    match get_media_data mid fetched downloaded full_data with
    | none => .httpErr 404
    | some md => .ok md

def isInline : Option MediaData → Bool
  | some (.full _ _ _) => true
  | _ => false

def bodyMedia {α : Type} : HttpOut α → Option α
  | .ok a => some a
  | .httpErr _ => none

/-! ## The live new-message handler (src/app.py lines 593-631)

Oracles: `chat` models `event.chat_id`, `date_str` models
`msg.date.strftime("%Y-%m-%d") if msg.date else None`, `today` models
`get_today_date()`; `fetched` and `downloaded` feed `get_media_data`.
Returns the frame handed to `manager.broadcast`, or `none` when the event is
discarded. -/

structure WsFrame where
  frame_type : String
  text : String
  has_media : Bool
  date_only : Option String
  media_data : Option MediaData
deriving DecidableEq

def handler (current_channel : Int) (today : String) (chat : Int)
    (msg : TgMessage) (mid : Int) (date_str : Option String)
    (fetched : Option TgMessage) (downloaded : Option Nat) : Option WsFrame :=
  if chat ≠ current_channel then none
  else if date_str ≠ some today then none
  else
    let media_type := detect_media_type msg
    let has_media := msg.media
    some
      { frame_type := if has_media then media_type else "text"
        text := msg.text
        has_media := has_media
        date_only := date_str
        media_data :=
          if has_media then ws_item_media msg fetched downloaded mid
          else none }

/-! ## websocket_endpoint connect phase (src/app.py lines 536-553)

The endpoint first evaluates `await get_session_status()` inside a
`try ... except: pass`; on a `requires_reconnect` status it accepts, sends one
error frame, closes and returns without registering; otherwise — including the
case where the precheck itself raised — it calls `manager.connect(ws)`, which
accepts and appends the connection to the registry. -/

inductive Precheck where
  /-- The precheck returned a status whose `requires_reconnect` field is given. -/
  | status (requires_reconnect : Bool)
  /-- The precheck raised; swallowed by `except: pass`. -/
  | raises
deriving DecidableEq

structure WsAccept where
  accepted : Bool
  error_frames : Nat
  closed_early : Bool
  registry : List Nat
deriving DecidableEq

def websocket_connect (pre : Precheck) (registry : List Nat) (c : Nat) : WsAccept :=
  match pre with
  | .status true => ⟨true, 1, true, registry⟩
  | .status false => ⟨true, 0, false, registry ++ [c]⟩
  | .raises => ⟨true, 0, false, registry ++ [c]⟩

/-! ## Session status

A status record keeps the fields the claims mention; error text, timestamps
and the user payload are elided (`authenticated` captures `bool(me)` on the
active path of the endpoint). -/

structure SessionStatus where
  status : String
  authenticated : Bool
  requires_reconnect : Bool
deriving DecidableEq

/-- Outcome of the body of the inner `try` of the `/session-status` endpoint
(src/app.py lines 234-316): either everything up to the `return` succeeded, or
one of the listed exception classes was raised by `client.get_me()` or the
code after it. -/
inductive AppMeOutcome where
  | success (me_truthy : Bool)
  | authKeyUnregistered
  | authKeyInvalid
  | passwordNeeded
  | otherExc
deriving DecidableEq

inductive AppClientState where
  /-- `client.is_connected()` itself raised (outer `except`). -/
  | outerFail
  | notConnected
  | connected (o : AppMeOutcome)
deriving DecidableEq

/-- The `/session-status` endpoint, src/app.py lines 214-326.  Note the code
has distinct handlers for `AuthKeyUnregisteredError` (status `expired`) and
for other `AuthKeyError`s (status `auth_error`). -/
def app_session_status : AppClientState → SessionStatus
  | .outerFail => ⟨"fatal_error", false, true⟩
  | .notConnected => ⟨"disconnected", false, true⟩
  | .connected (.success t) => ⟨"active", t, false⟩
  | .connected .authKeyUnregistered => ⟨"expired", false, true⟩
  | .connected .authKeyInvalid => ⟨"auth_error", false, true⟩
  | .connected .passwordNeeded => ⟨"password_needed", false, true⟩
  | .connected .otherExc => ⟨"error", false, true⟩

/-- Outcome classes of the inner `try` of `get_session_status` in
src/get_client.py lines 219-297, which catches `AuthKeyUnregisteredError`,
`AuthKeyError` and `SessionExpiredError` with a single handler. -/
inductive GcMeOutcome where
  | success
  | credentialError
  | passwordNeeded
  | otherExc
deriving DecidableEq

inductive GcClientState where
  | outerFail
  | notConnected
  | connected (o : GcMeOutcome)
deriving DecidableEq

/-- `get_session_status` from src/get_client.py lines 219-297. -/
def gc_session_status : GcClientState → SessionStatus
  | .outerFail => ⟨"fatal_error", false, true⟩
  | .notConnected => ⟨"disconnected", false, true⟩
  | .connected .success => ⟨"active", true, false⟩
  | .connected .credentialError => ⟨"expired", false, true⟩
  | .connected .passwordNeeded => ⟨"password_needed", false, true⟩
  | .connected .otherExc => ⟨"error", false, true⟩

def session_status_values : List String :=
  ["active", "disconnected", "expired", "auth_error", "password_needed",
   "error", "fatal_error"]

/-! ## verify_code (src/app.py lines 368-408)

The whole body sits in one `try`.  `raise HTTPException(400)` for a missing
code is therefore caught by the final `except Exception` handler of the same
function, which returns a normal JSON body with status `verification_failed`.
Oracles: `c` is the outcome of `client.sign_in(phone_number, code)`, `p` the
outcome of `client.sign_in(password=password)`. -/

inductive SignInCodeOutcome where
  | success
  /-- `SessionPasswordNeededError` raised: the account demands a second factor. -/
  | needsPassword
  | fails
deriving DecidableEq

inductive SignInPwOutcome where
  | success
  | fails
deriving DecidableEq

inductive VerifyResponse where
  /-- An HTTP 200 JSON body with the given `status` and `authenticated` fields. -/
  | body (status : String) (authenticated : Bool)
  /-- An HTTPException propagated to the framework with this status code. -/
  | httpError (code : Nat)
deriving DecidableEq

/-- Python truthiness of an optional string (`None` and `""` are falsy). -/
def strTruthy : Option String → Bool
  | none => false
  | some s => !s.isEmpty

def verify_code (code pw : Option String) (c : SignInCodeOutcome)
    (p : SignInPwOutcome) : VerifyResponse :=
  if !strTruthy code then
    -- `raise HTTPException(status_code=400, ...)` is inside the try block and
    -- is caught below by `except Exception`, which returns this body.
    .body "verification_failed" false
  else
    match c with
    | .needsPassword => .body "password_needed" false
    | .fails => .body "verification_failed" false
    | .success =>
      if strTruthy pw then
        match p with
        | .success => .body "verified" true
        | .fails => .body "verification_failed" false
      else .body "verified" true

/-! ## switch_channel (src/app.py lines 521-533)

`channel_id` models the request body field: `none` when the key is missing
(`data["channel_id"]` raises `KeyError`), `some none` when the value is a
string `int()` cannot parse (`ValueError`), `some (some n)` when `int()`
yields `n`.  Raw exceptions escape the route (the framework turns them into a
500-class response); only the session gate raises an HTTPException. -/

inductive SwitchOutcome where
  | ok (channel : Int)
  | httpUnauthorized
  | rawKeyError
  | rawValueError
deriving DecidableEq

/-- Returns the outcome together with the value of `current_channel` after the
request. -/
def switch_channel (requires_reconnect : Bool) (channel_id : Option (Option Int))
    (cur : Int) : SwitchOutcome × Int :=
  if requires_reconnect then (.httpUnauthorized, cur)
  else
    match channel_id with
    | none => (.rawKeyError, cur)
    | some none => (.rawValueError, cur)
    | some (some n) => (.ok n, n)

/-! ## create_telegram_client (src/get_client.py lines 23-166)

Environment oracles: `session_string` is `os.getenv("SESSION_STRING")`;
`string_decodes` models a successful `base64.b64decode`, `string_auth_key`
a truthy `_auth_key` on the decoded `MemorySession`; `fs` maps a path to the
state of an existing file (`none` when `os.path.exists` is false);
`ctor_string` / `ctor_file p` / `ctor_fresh` model whether the
`TelegramClient(...)` constructor call at the respective site succeeds.
Diagnostic `error` strings accumulated in `status_info` are elided. -/

structure FileState where
  size : Nat
  /-- Opening the file and reading the first 100 bytes succeeds. -/
  read_ok : Bool
  /-- The bytes read are non-empty (Python-truthy). -/
  header_nonempty : Bool

structure Env where
  session_string : Option String
  string_decodes : Bool
  string_auth_key : Bool
  fs : String → Option FileState
  ctor_string : Bool
  ctor_file : String → Bool
  ctor_fresh : Bool

/-- `check_session_file_health` (src/get_client.py lines 47-78): existence,
size bounds, then a header read. -/
def check_session_file_health (fs : String → Option FileState) (p : String) :
    Bool × String :=
  match fs p with
  | none => (false, "Session file does not exist")
  | some st =>
    if st.size < 100 then (false, "Session file too small")
    else if 10 * 1024 * 1024 < st.size then (false, "Session file too large")
    else if st.read_ok then
      if st.header_nonempty then (true, "Session file appears valid")
      else (false, "Empty session file")
    else (false, "Error reading session file")

/-- `load_session_from_string` (src/get_client.py lines 23-45) yields a session
exactly when the base64 decode succeeds and the decoded session carries a
truthy auth key; every failure is caught and becomes `None`. -/
def load_session_from_string_ok (e : Env) : Bool :=
  e.string_decodes && e.string_auth_key

inductive ClientResult where
  | ok (session_source : String) (session_valid : Bool) (requires_login : Bool)
  /-- `raise RuntimeError(...)` at the end of `create_telegram_client`. -/
  | fatal
deriving DecidableEq

def session_file_paths : List String :=
  ["session_name.session", "session.session", "telegram.session"]

/-- Priority 3: fresh client with a temporary session name. -/
def try_fresh (e : Env) : ClientResult :=
  if e.ctor_fresh then .ok "new" false true else .fatal

/-- Priority 2: the `for session_file in session_file_paths` loop.  A path is
skipped when it does not exist; an unhealthy file or a constructor error falls
through to the next path. -/
def try_files (e : Env) : List String → ClientResult
  | [] => try_fresh e
  | p :: ps =>
    if (e.fs p).isSome then
      if (check_session_file_health e.fs p).1 then
        if e.ctor_file p then .ok ("file:" ++ p) true false
        else try_files e ps
      else try_files e ps
    else try_files e ps

def create_telegram_client (e : Env) : ClientResult :=
  match e.session_string with
  | some s =>
    if s.isEmpty then try_files e session_file_paths
    else if load_session_from_string_ok e then
      if e.ctor_string then .ok "environment_string" true false
      else try_files e session_file_paths
    else try_files e session_file_paths
  | none => try_files e session_file_paths

/-! ## Spec-side source priority (from the wording of claim C2 / spec 4.1):
string first when structurally valid, then each persisted file path in order
(existence, size bounds, minimal structural read), finally fresh creation;
`none` when even fresh construction fails. -/

def spec_string_valid (e : Env) : Bool :=
  (match e.session_string with
   | some s => !s.isEmpty
   | none => false) && e.string_decodes && e.string_auth_key

def spec_file_valid (fs : String → Option FileState) (p : String) : Bool :=
  match fs p with
  | none => false
  | some st =>
    decide (100 ≤ st.size) && decide (st.size ≤ 10 * 1024 * 1024) &&
      st.read_ok && st.header_nonempty

def spec_first_source (e : Env) : Option String :=
  if spec_string_valid e && e.ctor_string then some "environment_string"
  else
    match session_file_paths.find? (fun p => spec_file_valid e.fs p && e.ctor_file p) with
    | some p => some ("file:" ++ p)
    | none => if e.ctor_fresh then some "new" else none

def result_source : ClientResult → Option String
  | .ok src _ _ => some src
  | .fatal => none

/-! ## Auxiliary predicates and concrete example inputs -/

/-- Truthiness of the `get_messages` oracle result combined with `msg.media`
(the `if not msg or not msg.media` guard in `get_media_data`). -/
def lookupHasMedia : Option TgMessage → Bool
  | some m => m.media
  | none => false

/-- Truthiness of the `download_media` oracle result: a present, non-empty
bytes object. -/
def dlTruthy : Option Nat → Bool
  | some (_ + 1) => true
  | _ => false

/-- The kind strings `detect_media_type` can actually return. -/
def code_kinds : List String :=
  ["photo", "video", "gif", "voice", "audio", "sticker", "poll", "file", "text"]

/-- A document message of 6 MiB (6291456 bytes), no explicit MIME, no name. -/
def bigDoc : TgMessage :=
  ⟨false, false, false, false, false, false, false, true, true, "",
    some ⟨none, none, 6291456⟩⟩

/-- A message whose only set presence flag is `gif`. -/
def gifMsg : TgMessage :=
  ⟨false, false, true, false, false, false, false, false, true, "", none⟩

/-- A plain photo message. -/
def photoMsg : TgMessage :=
  ⟨true, false, false, false, false, false, false, false, true, "hi", none⟩

/-- An environment with no session string and no session files. -/
def env0 : Env :=
  ⟨none, false, false, fun _ => none, true, fun _ => true, true⟩

/-! ## Helper lemmas about broadcast -/

theorem broadcastAux_delivered_mem (ok : Nat → Bool) (l : List Nat) (i : Nat) :
    ∀ x ∈ (broadcastAux ok l i).2, x ∈ l := by
  induction l, i using broadcastAux.induct ok with
  | case1 l i h hok ih =>
    intro x hx
    rw [broadcastAux] at hx
    simp only [h, dif_pos, hok, if_pos, List.mem_cons] at hx
    rcases hx with hx | hx
    · exact hx ▸ List.getElem_mem h
    · exact ih x hx
  | case2 l i h hok ih =>
    intro x hx
    rw [broadcastAux] at hx
    simp only [h, dif_pos, hok, if_neg, Bool.false_eq_true, if_false] at hx
    exact disconnectConn_subset l (l[i]) (ih x hx)
  | case3 l i h =>
    intro x hx
    rw [broadcastAux] at hx
    simp [h] at hx

theorem broadcastAux_all_ok (ok : Nat → Bool) (l : List Nat) (i : Nat)
    (hok : ∀ x ∈ l, ok x = true) : broadcastAux ok l i = (l, l.drop i) := by
  induction l, i using broadcastAux.induct ok with
  | case1 l i h hsend ih =>
    rw [broadcastAux]
    simp only [h, dif_pos, hsend, if_pos]
    rw [ih hok, List.drop_eq_getElem_cons h]
  | case2 l i h hsend ih =>
    exact absurd (hok _ (List.getElem_mem h)) (by simp [hsend])
  | case3 l i h =>
    rw [broadcastAux, dif_neg h, List.drop_eq_nil_of_le (by omega)]

theorem broadcast_delivered_mem (ok : Nat → Bool) (l : List Nat) :
    ∀ x ∈ (broadcast ok l).2, x ∈ l :=
  broadcastAux_delivered_mem ok l 0

theorem broadcast_all_ok (ok : Nat → Bool) (l : List Nat)
    (hok : ∀ x ∈ l, ok x = true) : broadcast ok l = (l, l) := by
  unfold broadcast
  rw [broadcastAux_all_ok ok l 0 hok, List.drop_zero]

/-! ## Claim C1 -/

/-- Claim C1 (code bug): the claim states that when one send fails, every
other registered connection still receives the message and no further
connection is skipped.  The code removes the failing connection from the very
list the `for` loop is iterating, so the connection that follows a failing one
is skipped: with registry `[0, 1]` where the send to `0` raises and the send
to `1` would succeed, connection `1` receives nothing and stays registered. -/
theorem c1_broadcast_skips_after_failure :
    broadcast (fun c => decide (c = 1)) [0, 1] = ([1], [])
    ∧ 1 ∉ (broadcast (fun c => decide (c = 1)) [0, 1]).2
    ∧ 1 ∈ (broadcast (fun c => decide (c = 1)) [0, 1]).1 := by
  have h : broadcast (fun c => decide (c = 1)) [0, 1] = ([1], []) := by
    unfold broadcast
    rw [broadcastAux]
    norm_num [disconnectConn, List.erase]
    rw [broadcastAux]
    norm_num
  refine ⟨h, ?_, ?_⟩ <;> rw [h] <;> simp

/-! ## Helper lemmas about create_telegram_client -/

theorem check_health_fst (fs : String → Option FileState) (p : String) :
    (check_session_file_health fs p).1 = spec_file_valid fs p := by
  unfold check_session_file_health spec_file_valid
  cases hfp : fs p with
  | none => rfl
  | some st =>
    rcases st with ⟨sz, ro, hn⟩
    by_cases h1 : sz < 100
    · have d1 : decide (100 ≤ sz) = false := by simp; omega
      simp [h1, d1]
    · by_cases h2 : 10 * 1024 * 1024 < sz
      · have d2 : decide (sz ≤ 10 * 1024 * 1024) = false := by simp; omega
        simp [h1, h2, d2]
      · have d1 : decide (100 ≤ sz) = true := by simp; omega
        have d2 : decide (sz ≤ 10 * 1024 * 1024) = true := by simp; omega
        cases ro <;> cases hn <;> simp [h1, h2, d1, d2]

theorem try_files_eq (e : Env) (ps : List String) :
    try_files e ps =
      match ps.find? (fun p => spec_file_valid e.fs p && e.ctor_file p) with
      | some p => .ok ("file:" ++ p) true false
      | none => try_fresh e := by
  induction ps with
  | nil => rfl
  | cons p ps ih =>
    unfold try_files
    by_cases hex : (e.fs p).isSome
    · by_cases hh : (check_session_file_health e.fs p).1 = true
      · have hv : spec_file_valid e.fs p = true := by rw [← check_health_fst]; exact hh
        by_cases hc : e.ctor_file p = true
        · rw [List.find?_cons_of_pos _ (by simp [hv, hc])]
          simp [hex, hh, hc]
        · rw [List.find?_cons_of_neg _ (by simp [hv, hc])]
          simp [hex, hh, hc, ih]
      · have hv : spec_file_valid e.fs p = false := by
          rw [← check_health_fst]; simpa using hh
        rw [List.find?_cons_of_neg _ (by simp [hv])]
        simp [hex, hh, ih]
    · have hv : spec_file_valid e.fs p = false := by
        unfold spec_file_valid
        cases hfp : e.fs p with
        | none => rfl
        | some st => rw [hfp] at hex; simp at hex
      rw [List.find?_cons_of_neg _ (by simp [hv])]
      simp [hex, ih]

theorem result_source_try_fresh (e : Env) :
    result_source (try_fresh e) = if e.ctor_fresh then some "new" else none := by
  unfold try_fresh
  split <;> rfl

theorem result_source_try_files (e : Env) :
    result_source (try_files e session_file_paths) =
      match session_file_paths.find? (fun p => spec_file_valid e.fs p && e.ctor_file p) with
      | some p => some ("file:" ++ p)
      | none => if e.ctor_fresh then some "new" else none := by
  rw [try_files_eq]
  cases hf : session_file_paths.find? (fun p => spec_file_valid e.fs p && e.ctor_file p) with
  | some p => rfl
  | none => exact result_source_try_fresh e

theorem try_files_fatal (e : Env) :
    try_files e session_file_paths = .fatal ↔
      session_file_paths.find? (fun p => spec_file_valid e.fs p && e.ctor_file p) = none
      ∧ e.ctor_fresh = false := by
  rw [try_files_eq]
  cases hf : session_file_paths.find? (fun p => spec_file_valid e.fs p && e.ctor_file p) with
  | some p => simp
  | none =>
    unfold try_fresh
    by_cases hc : e.ctor_fresh = true
    · simp [hc]
    · simp only [Bool.not_eq_true] at hc
      simp [hc]

/-! ## Claim C2 -/

/-- Claim C2 (confirmed): `create_telegram_client` realises exactly the
priority order of the spec — environment string first when it is present,
decodes and carries key material (and its client constructor succeeds), then
the three persisted file paths in order, each validated by existence, size
bounds and a header read, finally a fresh client; every failure falls through
to the next source, and the result is the `RuntimeError` outcome exactly when
no source was valid and even fresh construction fails. -/
theorem create_client_string_win (e : Env)
    (h : (spec_string_valid e && e.ctor_string) = true) :
    create_telegram_client e = .ok "environment_string" true false := by
  simp only [Bool.and_eq_true] at h
  obtain ⟨hsv, hc⟩ := h
  unfold create_telegram_client
  cases hss : e.session_string with
  | none =>
    unfold spec_string_valid at hsv
    rw [hss] at hsv
    simp at hsv
  | some s =>
    unfold spec_string_valid at hsv
    rw [hss] at hsv
    simp only [Bool.and_eq_true] at hsv
    obtain ⟨⟨hne, hd⟩, hk⟩ := hsv
    have he : s.isEmpty = false := by simpa using hne
    simp [he, load_session_from_string_ok, hd, hk, hc]

theorem create_client_string_fail (e : Env)
    (h : (spec_string_valid e && e.ctor_string) = false) :
    create_telegram_client e = try_files e session_file_paths := by
  unfold create_telegram_client
  cases hss : e.session_string with
  | none => rfl
  | some s =>
    unfold spec_string_valid at h
    rw [hss] at h
    by_cases he : s.isEmpty
    · simp [he]
    · have he' : s.isEmpty = false := by simpa using he
      by_cases hd : load_session_from_string_ok e = true
      · have hd' := hd
        unfold load_session_from_string_ok at hd'
        simp only [Bool.and_eq_true] at hd'
        obtain ⟨hd1, hd2⟩ := hd'
        simp only [he', hd1, hd2, Bool.not_false, Bool.true_and, Bool.and_true] at h
        simp [he', hd, h]
      · have hd' : load_session_from_string_ok e = false := by simpa using hd
        simp [he', hd']

/-! ## Claim C2 -/

/-- Claim C2 (confirmed): `create_telegram_client` realises exactly the
priority order of the spec — environment string first when it is present,
decodes and carries key material (and its client constructor succeeds), then
the three persisted file paths in order, each validated by existence, size
bounds and a header read, finally a fresh client; every failure falls through
to the next source, and the result is the `RuntimeError` outcome exactly when
no source was valid and even fresh construction fails. -/
theorem c2_source_priority (e : Env) :
    result_source (create_telegram_client e) = spec_first_source e
    ∧ (create_telegram_client e = .fatal ↔
        (spec_string_valid e && e.ctor_string) = false
        ∧ session_file_paths.find? (fun p => spec_file_valid e.fs p && e.ctor_file p) = none
        ∧ e.ctor_fresh = false) := by
  by_cases hs : (spec_string_valid e && e.ctor_string) = true
  · have hc := create_client_string_win e hs
    refine ⟨?_, ?_⟩
    · rw [hc]
      unfold spec_first_source
      rw [if_pos hs]
      rfl
    · rw [hc]
      simp [hs]
  · have hs' : (spec_string_valid e && e.ctor_string) = false := by simpa using hs
    have hc := create_client_string_fail e hs'
    refine ⟨?_, ?_⟩
    · rw [hc, result_source_try_files]
      unfold spec_first_source
      rw [if_neg hs]
    · rw [hc, try_files_fatal]
      simp [hs']

/-- Witness for C2 at a concrete environment with no credential sources. -/
theorem c2_source_priority_witness :
    result_source (create_telegram_client env0) = spec_first_source env0
    ∧ (create_telegram_client env0 = .fatal ↔
        (spec_string_valid env0 && env0.ctor_string) = false
        ∧ session_file_paths.find?
            (fun p => spec_file_valid env0.fs p && env0.ctor_file p) = none
        ∧ env0.ctor_fresh = false) :=
  c2_source_priority env0

/-! ## Claim C3 -/

/-- Claim C3 (counterexample): the claim says an invalid or invalidated
credential maps to status `expired`, but the `/session-status` endpoint maps
an `AuthKeyError` that is not an `AuthKeyUnregisteredError` to the distinct
status `auth_error`. -/
theorem c3_counterexample :
    (app_session_status (.connected .authKeyInvalid)).status = "auth_error"
    ∧ (app_session_status (.connected .authKeyInvalid)).status ≠ "expired" := by
  refine ⟨rfl, ?_⟩
  decide

/-- Claim C3 (amended): both status functions are total over their failure
classes and `requires_reconnect` holds exactly when the status is not
`active`; the per-class mapping is as claimed except that the endpoint sends
a non-unregistered auth-key error to `auth_error`, while the get_client copy
sends all three credential errors to `expired`. -/
theorem c3_status_mapping :
    (∀ s : AppClientState,
        (app_session_status s).status ∈ session_status_values
        ∧ (app_session_status s).requires_reconnect
            = !((app_session_status s).status == "active"))
    ∧ (∀ g : GcClientState,
        (gc_session_status g).status ∈ session_status_values
        ∧ (gc_session_status g).requires_reconnect
            = !((gc_session_status g).status == "active"))
    ∧ (app_session_status .notConnected).status = "disconnected"
    ∧ (app_session_status (.connected .authKeyUnregistered)).status = "expired"
    ∧ (app_session_status (.connected .authKeyInvalid)).status = "auth_error"
    ∧ (app_session_status (.connected .passwordNeeded)).status = "password_needed"
    ∧ (app_session_status (.connected .otherExc)).status = "error"
    ∧ (∀ t : Bool, (app_session_status (.connected (.success t))).status = "active")
    ∧ (app_session_status .outerFail).status = "fatal_error"
    ∧ (gc_session_status .notConnected).status = "disconnected"
    ∧ (gc_session_status (.connected .credentialError)).status = "expired"
    ∧ (gc_session_status (.connected .passwordNeeded)).status = "password_needed"
    ∧ (gc_session_status (.connected .otherExc)).status = "error"
    ∧ (gc_session_status (.connected .success)).status = "active" := by
  refine ⟨?_, ?_, rfl, rfl, rfl, rfl, rfl, fun t => rfl, rfl, rfl, rfl, rfl, rfl, rfl⟩
  · intro s
    rcases s with _ | _ | (t | _ | _ | _ | _) <;>
      first
      | exact ⟨by decide, by decide⟩
      | (cases t <;> exact ⟨by decide, by decide⟩)
  · intro g
    rcases g with _ | _ | (_ | _ | _ | _) <;> exact ⟨by decide, by decide⟩

/-! ## Claim C4 -/

/-- Claim C4 (counterexample): a 6 MiB document requested with the full-data
flag — what the `/media/{id}` endpoint passes through unchecked, its default
being true — comes back as an inline base64 payload although its size exceeds
the 5 MB pull-path ceiling. -/
theorem c4_counterexample :
    get_media_data 7 (some bigDoc) (some 6291456) true
      = some (.full 6291456 "application/octet-stream" "file")
    ∧ bodyMedia (get_media_endpoint false 7 (some bigDoc) (some 6291456) true)
      = some (.full 6291456 "application/octet-stream" "file")
    ∧ 5 * 1024 * 1024 < 6291456 := by
  refine ⟨rfl, rfl, by norm_num⟩

/-- Claim C4 (amended): on the `/messages` pull path the payload is inline
exactly when the reported file size is at most 5 MB (and the download
succeeds); on the websocket push path exactly when it is at most 1 MB; the
`/media/{id}` endpoint applies no size ceiling at all — its payload is inline
whenever `full_data` is true and the download succeeds. -/
theorem c4_inline_thresholds (msg : TgMessage) (fetched : Option TgMessage)
    (downloaded : Option Nat) (mid : Int) (full_data : Bool) :
    isInline (messages_item_media msg fetched downloaded mid)
      = (msg.media && (lookupHasMedia fetched && dlTruthy downloaded
          && decide (fileSize msg ≤ 5 * 1024 * 1024)))
    ∧ isInline (ws_item_media msg fetched downloaded mid)
      = (msg.media && (lookupHasMedia fetched && dlTruthy downloaded
          && decide (fileSize msg ≤ 1 * 1024 * 1024)))
    ∧ isInline (bodyMedia (get_media_endpoint false mid fetched downloaded full_data))
      = (lookupHasMedia fetched && dlTruthy downloaded && full_data) := by
  have key : ∀ b : Bool, isInline (get_media_data mid fetched downloaded b)
      = (lookupHasMedia fetched && dlTruthy downloaded && b) := by
    intro b
    unfold get_media_data lookupHasMedia dlTruthy isInline
    cases fetched with
    | none => simp
    | some m =>
      cases hm : m.media <;> cases b <;>
        rcases downloaded with _ | (_ | n) <;> simp [hm]
  have hbody : bodyMedia (get_media_endpoint false mid fetched downloaded full_data)
      = get_media_data mid fetched downloaded full_data := by
    unfold get_media_endpoint bodyMedia
    cases hg : get_media_data mid fetched downloaded full_data <;> simp
  refine ⟨?_, ?_, ?_⟩
  · unfold messages_item_media
    cases hmm : msg.media
    · simp [hmm, isInline]
    · simp [key]
  · unfold ws_item_media
    cases hmm : msg.media
    · simp [hmm, isInline]
    · simp [key]
  · rw [hbody, key full_data]

/-! ## Claim C5 -/

/-- Claim C5 (confirmed): the live handler forwards a frame to broadcast
exactly when the event channel equals the current channel and the formatted
message date equals the current process date; an event failing either filter
is discarded, independently of the other filter and of every other input. -/
theorem c5_handler_filters (cc : Int) (today : String) (chat : Int)
    (msg : TgMessage) (mid : Int) (d : Option String)
    (fetched : Option TgMessage) (downloaded : Option Nat) :
    ((handler cc today chat msg mid d fetched downloaded).isSome
        = (decide (chat = cc) && decide (d = some today)))
    ∧ (handler cc today chat msg mid d fetched downloaded = none
        ↔ chat ≠ cc ∨ d ≠ some today) := by
  unfold handler
  by_cases h1 : chat = cc <;> by_cases h2 : d = some today <;> simp [h1, h2]

/-! ## Claim C6 -/

/-- Claim C6 (code bug): a request without a code never produces a 4xx
response — the raised `HTTPException(400)` is swallowed by the same
function's `except Exception` handler and comes back as an HTTP 200 body with
status `verification_failed`; no input at all yields an `HTTPException`; and
when the upstream demands a second factor at the code submission, a supplied
password is ignored and the result is `password_needed`, not `verified`. -/
theorem c6_verify_code_behavior :
    (∀ (pw : Option String) (c : SignInCodeOutcome) (p : SignInPwOutcome),
        verify_code none pw c p = .body "verification_failed" false)
    ∧ (∀ (code pw : Option String) (c : SignInCodeOutcome) (p : SignInPwOutcome)
        (n : Nat), verify_code code pw c p ≠ .httpError n)
    ∧ (∀ p : SignInPwOutcome,
        verify_code (some "12345") (some "pw") .needsPassword p
          = .body "password_needed" false) := by
  refine ⟨fun pw c p => rfl, ?_, fun p => rfl⟩
  intro code pw c p n
  cases c <;> cases p <;> unfold verify_code <;> split_ifs <;> simp

/-! ## Claim C7 -/

/-- Claim C7 (counterexample): the claim draws the kind from a set containing
`animation`, but for an animated-media message the code returns the kind
string `gif`, which is not in the claimed set. -/
theorem c7_counterexample :
    detect_media_type gifMsg = "gif"
    ∧ "gif" ∉ (["photo", "video", "animation", "voice", "audio", "sticker",
        "poll", "file", "text"] : List String) := by
  refine ⟨rfl, ?_⟩
  decide

/-- Claim C7 (amended): classification is a total function into the nine kind
strings the code uses (`gif` in place of the claimed `animation`), and for
every message not simultaneously flagged poll and document the MIME type
follows the claimed chain: explicit file MIME field when truthy, else the
fixed kind table, else the extension lookup for generic file attachments,
else `application/octet-stream`. -/
theorem c7_classify (msg : TgMessage)
    (h : ¬(msg.poll = true ∧ msg.document = true)) :
    detect_media_type msg ∈ code_kinds
    ∧ get_mime_type msg = spec_mime_chain msg := by
  constructor
  · unfold detect_media_type code_kinds
    split_ifs <;> simp
  · unfold get_mime_type spec_mime_chain
    cases hfm : fileMime msg with
    | some m => rfl
    | none =>
      rcases msg with ⟨ph, vi, gi, vo, au, st, po, doc, me, tx, fi⟩
      cases ph <;> cases vi <;> cases gi <;> cases vo <;> cases au <;> cases st
        <;> cases po <;> cases doc <;>
        simp_all [detect_media_type, kind_mime_table]

/-- Witness for C7 at a concrete photo message. -/
theorem c7_classify_witness :
    (¬(photoMsg.poll = true ∧ photoMsg.document = true))
    ∧ (detect_media_type photoMsg ∈ code_kinds
        ∧ get_mime_type photoMsg = spec_mime_chain photoMsg) := by
  have h : ¬(photoMsg.poll = true ∧ photoMsg.document = true) := by decide
  exact ⟨h, c7_classify photoMsg h⟩

/-! ## Claim C8 -/

/-- Claim C8 (confirmed): on a `requires_reconnect` status the websocket
endpoint accepts the handshake, sends exactly one error frame, closes, leaves
the registry unchanged — so the connection is never registered — and a
connection absent from the registry is never delivered to by a broadcast. -/
theorem c8_reconnect_gate (reg : List Nat) (c : Nat) (ok : Nat → Bool)
    (hc : c ∉ reg) :
    websocket_connect (.status true) reg c = ⟨true, 1, true, reg⟩
    ∧ c ∉ (websocket_connect (.status true) reg c).registry
    ∧ c ∉ (broadcast ok (websocket_connect (.status true) reg c).registry).2 := by
  refine ⟨rfl, hc, ?_⟩
  intro hmem
  exact hc (broadcast_delivered_mem ok reg c hmem)

/-- Witness for C8 with an empty registry. -/
theorem c8_reconnect_gate_witness :
    (0 ∉ ([] : List Nat))
    ∧ (websocket_connect (.status true) [] 0 = ⟨true, 1, true, []⟩
        ∧ 0 ∉ (websocket_connect (.status true) [] 0).registry
        ∧ 0 ∉ (broadcast (fun _ => true) (websocket_connect (.status true) [] 0).registry).2) := by
  have h : 0 ∉ ([] : List Nat) := by simp
  exact ⟨h, c8_reconnect_gate [] 0 (fun _ => true) h⟩

/-! ## Claim C9 -/

/-- Claim C9 (confirmed): when the session precheck raises, the bare
`except: pass` swallows the exception and the endpoint registers the
subscriber with no health gating: no error frame, no early close, the
connection is appended to the registry, and a broadcast whose sends all
succeed delivers to it. -/
theorem c9_precheck_exception_swallowed (reg : List Nat) (c : Nat)
    (ok : Nat → Bool) (hok : ∀ x ∈ reg ++ [c], ok x = true) :
    websocket_connect .raises reg c = ⟨true, 0, false, reg ++ [c]⟩
    ∧ c ∈ (websocket_connect .raises reg c).registry
    ∧ (broadcast ok (websocket_connect .raises reg c).registry).2 = reg ++ [c]
    ∧ c ∈ (broadcast ok (websocket_connect .raises reg c).registry).2 := by
  have hb : broadcast ok (reg ++ [c]) = (reg ++ [c], reg ++ [c]) :=
    broadcast_all_ok ok (reg ++ [c]) hok
  refine ⟨rfl, by simp [websocket_connect], ?_, ?_⟩
  · show (broadcast ok (reg ++ [c])).2 = reg ++ [c]
    rw [hb]
  · show c ∈ (broadcast ok (reg ++ [c])).2
    rw [hb]
    simp

/-- Witness for C9 with an empty prior registry. -/
theorem c9_precheck_exception_swallowed_witness :
    (∀ x ∈ ([] : List Nat) ++ [5], (fun _ : Nat => true) x = true)
    ∧ (websocket_connect .raises [] 5 = ⟨true, 0, false, [] ++ [5]⟩
        ∧ 5 ∈ (websocket_connect .raises [] 5).registry
        ∧ (broadcast (fun _ => true) (websocket_connect .raises [] 5).registry).2 = [] ++ [5]
        ∧ 5 ∈ (broadcast (fun _ => true) (websocket_connect .raises [] 5).registry).2) := by
  have h : ∀ x ∈ ([] : List Nat) ++ [5], (fun _ : Nat => true) x = true := by simp
  exact ⟨h, c9_precheck_exception_swallowed [] 5 (fun _ => true) h⟩

/-! ## Claim C10 -/

/-- Claim C10 (confirmed): with a healthy session, a body without the
`channel_id` key makes `switch_channel` propagate a raw `KeyError` and a
non-convertible value a raw `ValueError` — never the HTTPException used for
the auth gate — and in both cases `current_channel` keeps its prior value. -/
theorem c10_switch_channel_raw_errors (cur : Int) :
    switch_channel false none cur = (.rawKeyError, cur)
    ∧ switch_channel false (some none) cur = (.rawValueError, cur)
    ∧ (∀ b : Option (Option Int),
        (switch_channel false b cur).1 ≠ .httpUnauthorized) := by
  refine ⟨rfl, rfl, ?_⟩
  intro b
  rcases b with _ | (_ | n) <;> simp [switch_channel]

end TelegramChannel
